import Mathlib

/-!
Verification development for the spacontrol repository: a shallow embedding
of `src/models.py`, `src/spa_controller.py` and the broadcast fan-out of
`src/main.py`, together with theorems settling the specification claims.

Modelling conventions:
* Python `datetime.now()` is passed in as an explicit `now : Int` parameter.
* Temperatures are modelled as `Int` (nothing claim-relevant depends on the
  numeric type; the code forwards them opaquely).
* A `pybalboa.SpaClient` handle is observable only through its attributes;
  probing those attributes (or invoking a method on the handle) can raise.
  A handle is therefore modelled as `Except Unit SpaClientData`: `ok d`
  is a handle whose attributes read as `d`, `error ()` is a handle on which
  any attribute probe or device call raises.
* Python attribute truthiness (`if self.client.pumps`, `if light.options`)
  is modelled by `Option`/emptiness exactly where the code tests it.
* A command coroutine either raises (modelled `Except.error msg`, with the
  message the code formats) or completes, having attempted the device sends
  listed in order (`Except.ok actions`).
-/

/-- models.py `SpaConfig`. -/
structure SpaConfig where
  spa_id : Int
  name : String
  ip_address : String
  port : Int := 4257
  enabled : Bool := true
deriving DecidableEq

/-- A pybalboa pump device handle: exposes `state` (and `set_state`). -/
structure Pump where
  state : Int
deriving DecidableEq

/-- A pybalboa light device handle: exposes `state`, optionally `options`
(absent attribute modelled as `none`), and `set_state`. -/
structure Light where
  state : Int
  options : Option (List String)
deriving DecidableEq

/-- The observable attributes of a connected `pybalboa.SpaClient`.
`pumps` and `lights` are lists possibly holding `None` entries, as the code
guards each element with a truthiness test. -/
structure SpaClientData where
  configuration_loaded : Bool
  mac_address : Option String
  temperature : Option Int
  target_temperature : Option Int
  heat_mode : Option String
  pumps : List (Option Pump)
  lights : List (Option Light)
  circulation_pump : Option Pump
  filter_cycle_1_running : Bool
  filter_cycle_2_running : Bool
deriving DecidableEq

/-- A `SpaClient` handle: either its attributes are readable (`ok`), or any
attribute probe / device call on it raises (`error`). -/
instance {ε α : Type} [DecidableEq ε] [DecidableEq α] : DecidableEq (Except ε α) :=
  fun x y =>
    match x, y with
    | Except.ok a, Except.ok b =>
        if h : a = b then isTrue (h ▸ rfl)
        else isFalse (fun hh => h (Except.ok.inj hh))
    | Except.error a, Except.error b =>
        if h : a = b then isTrue (h ▸ rfl)
        else isFalse (fun hh => h (Except.error.inj hh))
    | Except.ok _, Except.error _ => isFalse (fun hh => Except.noConfusion hh)
    | Except.error _, Except.ok _ => isFalse (fun hh => Except.noConfusion hh)

abbrev SpaClient : Type := Except Unit SpaClientData

/-- models.py `SpaStatus` with its field defaults. -/
structure SpaStatus where
  spa_id : Int
  connected : Bool
  current_temp : Option Int := none
  target_temp : Option Int := none
  heat_mode : Option String := none
  pumps : List (Nat × Int) := []
  lights : Bool := false
  light_mode : Option String := none
  filter_mode : Option String := none
  circulation_pump : Bool := false
  mac_address : Option String := none
  last_update : Int
deriving DecidableEq

/-- spa_controller.py `SpaController`: config, optional client handle,
connected flag, and the diagnostics cache `last_status`. -/
structure SpaController where
  config : SpaConfig
  client : Option SpaClient
  connected : Bool
  last_status : Option SpaStatus
deriving DecidableEq

/-- A device communication actually attempted by a command. -/
inductive DeviceAction where
  | setTemperature (t : Int)
  | pumpSetState (idx : Int) (st : Int)
  | lightSetState (st : Int)
deriving DecidableEq

/-- The message of `Exception(f"Spa {spa_id} not connected")`. -/
def notConnectedMsg (spa_id : Int) : String :=
  "Spa " ++ toString spa_id ++ " not connected"

/-- The message of `Exception(f"Spa {spa_id} not found")`. -/
def notFoundMsg (spa_id : Int) : String :=
  "Spa " ++ toString spa_id ++ " not found"

/-- Message of Python's IndexError on an out-of-range list subscript. -/
def indexErrorMsg : String := "list index out of range"

/-- Stand-in message for an exception raised by the client handle itself
(attribute probe or device call); the code re-raises it unchanged. -/
def clientErrorMsg : String := "client error"

/-- Python `str(b)` for a bool. -/
def pyBoolStr (b : Bool) : String := if b then "True" else "False"

/-- Python `str(heat_mode) if heat_mode else None`: empty or absent string
is falsy and maps to `None`. -/
def pyStrOpt (s : Option String) : Option String :=
  match s with
  | some v => if v = "" then none else some v
  | none => none

/-- Python list subscript normalisation: a negative index counts from the
end of the list. -/
def pyNormIdx (len : Nat) (i : Int) : Int :=
  if i < 0 then (len : Int) + i else i

/-- Python list subscript `xs[i]`: negative indices wrap once; anything
still out of range raises IndexError (`Except.error`). -/
def pyListGet {α : Type} (xs : List α) (i : Int) : Except Unit α :=
  let j := pyNormIdx xs.length i
  if 0 ≤ j ∧ j < (xs.length : Int) then
    match xs.get? j.toNat with
    | some x => Except.ok x
    | none => Except.error ()
  else Except.error ()

/-- The pump-state cycle of `SpaController.cycle_pump`
(lines 161-168 of spa_controller.py): 0→1, 1→2, 2→0, anything else→0. -/
def nextPumpState (s : Int) : Int :=
  if s = 0 then 1
  else if s = 1 then 2
  else if s = 2 then 0
  else 0

/-- The no-options fallback of `SpaController.cycle_light`:
`next_state = 1 if current_state == 0 else 0`. -/
def toggleLightState (s : Int) : Int :=
  if s = 0 then 1 else 0

/-- The next light state chosen by `SpaController.cycle_light`: with a
truthy (present, non-empty) `options` list use `(state+1) % len(options)`,
else the binary toggle. -/
def nextLightState (light : Light) : Int :=
  match light.options with
  | some opts =>
      if opts ≠ [] then (light.state + 1) % (opts.length : Int)
      else toggleLightState light.state
  | none => toggleLightState light.state

/-- Pump parsing in `get_status` (lines 69-74): for each non-None pump,
record its positional index and raw state. The enclosing
`if self.client.pumps` truthiness test is subsumed (an empty list yields
an empty mapping either way). -/
def parsePumps (pumps : List (Option Pump)) : List (Nat × Int) :=
  pumps.enum.filterMap (fun p => p.2.map (fun pump => (p.1, pump.state)))

/-- The `light_mode` label computed in `get_status` for a light whose
state is > 0 (lines 89-95): named option if the options list is truthy and
the state is in range, `MODE_<state>` if out of range, `STATE_<state>`
when no (truthy) options list exists. -/
def lightModeLabel (light : Light) : String :=
  match light.options with
  | some opts =>
      if opts ≠ [] then
        if light.state < (opts.length : Int) then opts.getD light.state.toNat ""
        else "MODE_" ++ toString light.state
      else "STATE_" ++ toString light.state
  | none => "STATE_" ++ toString light.state

/-- Light parsing in `get_status` (lines 77-97): `lights_on` starts false
and `light_mode` starts "OFF"; the loop skips None entries and breaks at
the first non-None light; only when its state is > 0 are the variables
updated. -/
def parseLights (lights : List (Option Light)) : Bool × String :=
  match lights.findSome? id with
  | none => (false, "OFF")
  | some light =>
      if 0 < light.state then (true, lightModeLabel light)
      else (false, "OFF")

/-- `SpaController.get_status` (spa_controller.py lines 45-133), with the
wall clock passed as `now`. Returns the status together with the
controller as it stands after the call (`last_status` is assigned on the
fully-ready path only). The `Except.error` client case is the catch-all
`except` branch: any probe exception degrades to a disconnected status. -/
def SpaController.get_status (c : SpaController) (now : Int) :
    SpaStatus × SpaController :=
  match c.connected, c.client with
  | false, _ =>
      ({ spa_id := c.config.spa_id, connected := false, last_update := now }, c)
  | true, none =>
      ({ spa_id := c.config.spa_id, connected := false, last_update := now }, c)
  | true, some (Except.error _) =>
      ({ spa_id := c.config.spa_id, connected := false, last_update := now }, c)
  | true, some (Except.ok d) =>
      if d.configuration_loaded = false then
        ({ spa_id := c.config.spa_id, connected := true,
           current_temp := none, target_temp := none,
           mac_address := d.mac_address, last_update := now }, c)
      else
        let lp := parseLights d.lights
        let status : SpaStatus :=
          { spa_id := c.config.spa_id
            connected := true
            current_temp := d.temperature
            target_temp := d.target_temperature
            heat_mode := pyStrOpt d.heat_mode
            pumps := parsePumps d.pumps
            lights := lp.1
            light_mode := some lp.2
            filter_mode := some ("Cycle1: " ++ pyBoolStr d.filter_cycle_1_running
              ++ ", Cycle2: " ++ pyBoolStr d.filter_cycle_2_running)
            circulation_pump :=
              match d.circulation_pump with
              | some p => decide (0 < p.state)
              | none => false
            mac_address := d.mac_address
            last_update := now }
        (status, { c with last_status := some status })

/-- `SpaController.set_temperature` (lines 135-145): raise if not connected
or no client; otherwise forward the value unmodified; a client-side raise
is logged and re-raised. -/
def SpaController.set_temperature (c : SpaController) (temperature : Int) :
    Except String (List DeviceAction) :=
  match c.connected, c.client with
  | false, _ => Except.error (notConnectedMsg c.config.spa_id)
  | true, none => Except.error (notConnectedMsg c.config.spa_id)
  | true, some (Except.error _) => Except.error clientErrorMsg
  | true, some (Except.ok _) => Except.ok [DeviceAction.setTemperature temperature]

/-- `SpaController.cycle_pump` (lines 147-178): raise if not connected;
guard `self.client.pumps and len(self.client.pumps) > pump_id`; Python
subscript semantics for `pumps[pump_id]` (an IndexError is caught, logged
and re-raised); a None pump is a no-op; otherwise send the cycled state. -/
def SpaController.cycle_pump (c : SpaController) (pump_id : Int) :
    Except String (List DeviceAction) :=
  match c.connected, c.client with
  | false, _ => Except.error (notConnectedMsg c.config.spa_id)
  | true, none => Except.error (notConnectedMsg c.config.spa_id)
  | true, some (Except.error _) => Except.error clientErrorMsg
  | true, some (Except.ok d) =>
      if d.pumps ≠ [] ∧ (d.pumps.length : Int) > pump_id then
        match pyListGet d.pumps pump_id with
        | Except.error _ => Except.error indexErrorMsg
        | Except.ok none => Except.ok []
        | Except.ok (some pump) =>
            Except.ok [DeviceAction.pumpSetState
              (pyNormIdx d.pumps.length pump_id) (nextPumpState pump.state)]
      else Except.ok []

/-- `SpaController.cycle_light` (lines 180-209): raise if not connected;
guard `self.client.lights and len(self.client.lights) > 0`; take
`lights[0]`; a None light is a no-op; otherwise send the next state. -/
def SpaController.cycle_light (c : SpaController) :
    Except String (List DeviceAction) :=
  match c.connected, c.client with
  | false, _ => Except.error (notConnectedMsg c.config.spa_id)
  | true, none => Except.error (notConnectedMsg c.config.spa_id)
  | true, some (Except.error _) => Except.error clientErrorMsg
  | true, some (Except.ok d) =>
      if d.lights ≠ [] ∧ 0 < d.lights.length then
        match d.lights.head? with
        | some (some light) =>
            Except.ok [DeviceAction.lightSetState (nextLightState light)]
        | _ => Except.ok []
      else Except.ok []

/-- `SpaController.set_light` (lines 211-230): raise if not connected;
set `lights[0]` to 1 or 0 directly. -/
def SpaController.set_light (c : SpaController) (state : Bool) :
    Except String (List DeviceAction) :=
  match c.connected, c.client with
  | false, _ => Except.error (notConnectedMsg c.config.spa_id)
  | true, none => Except.error (notConnectedMsg c.config.spa_id)
  | true, some (Except.error _) => Except.error clientErrorMsg
  | true, some (Except.ok d) =>
      if d.lights ≠ [] ∧ 0 < d.lights.length then
        match d.lights.head? with
        | some (some _light) =>
            Except.ok [DeviceAction.lightSetState (if state then 1 else 0)]
        | _ => Except.ok []
      else Except.ok []

/-- spa_controller.py `SpaControllerManager`: insertion-ordered mapping
from spa_id to controller (Python dict), plus the loaded configs. -/
structure SpaControllerManager where
  controllers : List (Int × SpaController)
  configs : List SpaConfig
deriving DecidableEq

/-- Python dict membership `spa_id in self.controllers`. -/
def containsKey (m : List (Int × SpaController)) (spa_id : Int) : Bool :=
  m.any (fun p => p.1 = spa_id)

/-- Python dict read `self.controllers[spa_id]` (as an Option). -/
def lookupController (m : List (Int × SpaController)) (spa_id : Int) :
    Option SpaController :=
  (m.find? (fun p => p.1 = spa_id)).map Prod.snd

/-- Python dict assignment `self.controllers[config.spa_id] = controller`:
replace in place if the key exists, else append. -/
def insertController (m : List (Int × SpaController)) (spa_id : Int)
    (c : SpaController) : List (Int × SpaController) :=
  if m.any (fun p => p.1 = spa_id) then
    m.map (fun p => if p.1 = spa_id then (spa_id, c) else p)
  else m ++ [(spa_id, c)]

/-- One iteration of the `SpaControllerManager.initialize` loop body
(lines 243-256): skip a disabled config; attempt connect on an enabled
one; insert on success (`net cfg = some cl`), log and omit on a raised
connect (`net cfg = none`). -/
def initStep (net : SpaConfig → Option SpaClient)
    (acc : List (Int × SpaController)) (cfg : SpaConfig) :
    List (Int × SpaController) :=
  if cfg.enabled then
    match net cfg with
    | some cl => insertController acc cfg.spa_id
        { config := cfg, client := some cl, connected := true, last_status := none }
    | none => acc
  else acc

/-- `SpaControllerManager.initialize` (lines 237-256), with the outcome of
`SpaController.connect` on each config supplied by `net`: `some cl` means
connect succeeded and yielded handle `cl`, `none` means connect raised (the
exception is logged and the spa omitted). -/
def initControllers (net : SpaConfig → Option SpaClient)
    (configs : List SpaConfig) : SpaControllerManager :=
  { configs := configs
    controllers := configs.foldl (initStep net) [] }

/-- `SpaControllerManager.get_all_status` (lines 264-273): one status per
registered controller, in mapping order; also returns the manager with
each controller as `get_status` left it. -/
def SpaControllerManager.get_all_status (m : SpaControllerManager) (now : Int) :
    List (Int × SpaStatus) × SpaControllerManager :=
  let results := m.controllers.map (fun p =>
    let r := p.2.get_status now
    ((p.1, r.1), (p.1, r.2)))
  (results.map Prod.fst, { m with controllers := results.map Prod.snd })

/-- `SpaControllerManager.set_temperature` (lines 281-285). -/
def SpaControllerManager.set_temperature (m : SpaControllerManager)
    (spa_id : Int) (temperature : Int) : Except String (List DeviceAction) :=
  match lookupController m.controllers spa_id with
  | none => Except.error (notFoundMsg spa_id)
  | some c => c.set_temperature temperature

/-- `SpaControllerManager.cycle_pump` (lines 287-291). -/
def SpaControllerManager.cycle_pump (m : SpaControllerManager)
    (spa_id : Int) (pump_id : Int) : Except String (List DeviceAction) :=
  match lookupController m.controllers spa_id with
  | none => Except.error (notFoundMsg spa_id)
  | some c => c.cycle_pump pump_id

/-- `SpaControllerManager.cycle_light` (lines 293-297). -/
def SpaControllerManager.cycle_light (m : SpaControllerManager)
    (spa_id : Int) : Except String (List DeviceAction) :=
  match lookupController m.controllers spa_id with
  | none => Except.error (notFoundMsg spa_id)
  | some c => c.cycle_light

/-- `SpaControllerManager.set_light` (lines 299-303). -/
def SpaControllerManager.set_light (m : SpaControllerManager)
    (spa_id : Int) (state : Bool) : Except String (List DeviceAction) :=
  match lookupController m.controllers spa_id with
  | none => Except.error (notFoundMsg spa_id)
  | some c => c.set_light state

/-- Python `list.remove(a)`: drop the first occurrence of `a`. -/
def pyRemoveFirst {α : Type} [DecidableEq α] : List α → α → List α
  | [], _ => []
  | x :: rest, a => if x = a then rest else x :: pyRemoveFirst rest a

/-- The removal loop at the end of `ConnectionManager.broadcast`
(main.py lines 82-84): for each collected failed connection, remove it
from the active list if still present. -/
def pruneDisconnected {α : Type} [DecidableEq α]
    (active : List α) (disc : List α) : List α :=
  disc.foldl (fun acc c => if c ∈ acc then pyRemoveFirst acc c else acc) active

/-- `ConnectionManager.broadcast` (main.py lines 72-84), with per-channel
delivery outcomes supplied by `delivers`. Returns the connections
`send_text` was attempted on, in iteration order, and the registry after
the post-iteration removal of every connection whose delivery failed. -/
def ConnectionManager.broadcast {α : Type} [DecidableEq α]
    (active : List α) (delivers : α → Bool) : List α × List α :=
  let disconnected := active.filter (fun c => !(delivers c))
  (active, pruneDisconnected active disconnected)

/-! ## Theorems -/

/-- C1: `get_status` never raises: on an absent handle or a false connected
flag it returns a status with `connected = false` and every other field at
its default (the function is total, so no exception can propagate), and a
client on which attribute probing raises (`Except.error`) is caught and
likewise degrades to a `connected = false` status. -/
theorem C1_get_status_never_raises (c : SpaController) (now : Int) :
    ((c.connected = false ∨ c.client = none) →
      c.get_status now =
        ({ spa_id := c.config.spa_id, connected := false, last_update := now }, c)) ∧
    (c.connected = true → c.client = some (Except.error ()) →
      (c.get_status now).1 =
        { spa_id := c.config.spa_id, connected := false, last_update := now }) := by
  obtain ⟨cfg, cl, conn, ls⟩ := c
  constructor
  · rintro (h | h)
    · simp only at h; subst h; rfl
    · simp only at h; subst h; cases conn <;> rfl
  · intro h1 h2
    simp only at h1 h2; subst h1; subst h2; rfl

def c1NoClient : SpaController :=
  { config := { spa_id := 1, name := "Main Spa", ip_address := "172.16.10.140" }
    client := none, connected := false, last_status := none }

def c1RaisingClient : SpaController :=
  { config := { spa_id := 2, name := "Secondary Spa", ip_address := "172.16.10.163" }
    client := some (Except.error ()), connected := true, last_status := none }

theorem C1_get_status_never_raises_witness :
    c1NoClient.get_status 0 =
      ({ spa_id := 1, connected := false, last_update := 0 }, c1NoClient) ∧
    (c1RaisingClient.get_status 0).1 =
      { spa_id := 2, connected := false, last_update := 0 } :=
  ⟨(C1_get_status_never_raises c1NoClient 0).1 (Or.inl rfl),
   (C1_get_status_never_raises c1RaisingClient 0).2 rfl rfl⟩

/-- C8: on a present, connected handle whose readiness flag
`configuration_loaded` is false, `get_status` returns `connected = true`,
both temperatures absent, and `mac_address` exactly as the client reports
it (`some` when available, `none` otherwise); every other field keeps its
default. -/
theorem C8_not_ready_status (c : SpaController) (d : SpaClientData) (now : Int)
    (hconn : c.connected = true) (hcl : c.client = some (Except.ok d))
    (hload : d.configuration_loaded = false) :
    (c.get_status now).1 =
      { spa_id := c.config.spa_id, connected := true, current_temp := none,
        target_temp := none, mac_address := d.mac_address, last_update := now } := by
  obtain ⟨cfg, cl, conn, ls⟩ := c
  simp only at hconn hcl
  subst hconn; subst hcl
  simp [SpaController.get_status, hload]

def c8Data : SpaClientData :=
  { configuration_loaded := false, mac_address := some "00:15:27:aa:bb:cc"
    temperature := some 100, target_temperature := some 102
    heat_mode := some "Ready", pumps := [some { state := 1 }]
    lights := [some { state := 1, options := none }]
    circulation_pump := some { state := 1 }
    filter_cycle_1_running := true, filter_cycle_2_running := false }

def c8Controller : SpaController :=
  { config := { spa_id := 1, name := "Main Spa", ip_address := "172.16.10.140" }
    client := some (Except.ok c8Data), connected := true, last_status := none }

theorem C8_not_ready_status_witness :
    (c8Controller.get_status 3).1 =
      { spa_id := 1, connected := true, current_temp := none,
        target_temp := none, mac_address := some "00:15:27:aa:bb:cc",
        last_update := 3 } :=
  C8_not_ready_status c8Controller c8Data 3 rfl rfl rfl

/-- C9: `get_status` is a pure read on the controller: the config, client
handle and connected flag are unchanged by every call, and the resulting
controller is either exactly the input or the input with only the
`last_status` diagnostics cache updated to the status just produced. -/
theorem C9_get_status_frame (c : SpaController) (now : Int) :
    ((c.get_status now).2.config = c.config ∧
     (c.get_status now).2.client = c.client ∧
     (c.get_status now).2.connected = c.connected) ∧
    ((c.get_status now).2 = c ∨
     (c.get_status now).2 = { c with last_status := some (c.get_status now).1 }) := by
  obtain ⟨cfg, cl, conn, ls⟩ := c
  cases conn
  · exact ⟨⟨rfl, rfl, rfl⟩, Or.inl rfl⟩
  · match cl with
    | none => exact ⟨⟨rfl, rfl, rfl⟩, Or.inl rfl⟩
    | some (Except.error _) => exact ⟨⟨rfl, rfl, rfl⟩, Or.inl rfl⟩
    | some (Except.ok d) =>
        by_cases hload : d.configuration_loaded = false
        · simp [SpaController.get_status, hload]
        · simp [SpaController.get_status, hload]

/-- Subscripting with a nonnegative in-range index reads the list entry. -/
theorem pyListGet_ofNat {α : Type} (xs : List α) (p : Nat) (x : α)
    (h : xs.get? p = some x) : pyListGet xs (p : Int) = Except.ok x := by
  have hp : p < xs.length := List.get?_eq_some.mp h |>.1
  have h1 : ¬ ((p : Int) < 0) := by omega
  have h2 : 0 ≤ (p : Int) ∧ (p : Int) < (xs.length : Int) := by
    constructor <;> omega
  simp only [pyListGet, pyNormIdx]
  rw [if_neg h1]
  rw [if_pos h2]
  simp only [Int.toNat_natCast, h]

/-- C2: a connected spa with a pump device at index `p` cycles precisely
that device: the single send carries `nextPumpState` of its current state,
and `nextPumpState` is `(s+1) % 3` on states 0, 1, 2 and 0 on every other
state. -/
theorem C2_cycle_pump_sends_next_state (c : SpaController) (d : SpaClientData)
    (p : Nat) (pump : Pump)
    (hconn : c.connected = true) (hcl : c.client = some (Except.ok d))
    (hp : d.pumps.get? p = some (some pump)) :
    c.cycle_pump (p : Int) =
      Except.ok [DeviceAction.pumpSetState (p : Int) (nextPumpState pump.state)] ∧
    (∀ s : Int, s = 0 ∨ s = 1 ∨ s = 2 → nextPumpState s = (s + 1) % 3) ∧
    (∀ s : Int, ¬(s = 0 ∨ s = 1 ∨ s = 2) → nextPumpState s = 0) := by
  have hplen : p < d.pumps.length := List.get?_eq_some.mp hp |>.1
  have hne : d.pumps ≠ [] := by
    intro hnil; rw [hnil] at hplen; simp at hplen
  refine ⟨?_, ?_, ?_⟩
  · obtain ⟨cfg, cl, conn, ls⟩ := c
    simp only at hconn hcl
    subst hconn; subst hcl
    show SpaController.cycle_pump _ _ = _
    simp only [SpaController.cycle_pump]
    rw [if_pos ⟨hne, by omega⟩]
    rw [pyListGet_ofNat d.pumps p (some pump) hp]
    simp [pyNormIdx]
  · rintro s (rfl | rfl | rfl) <;> rfl
  · intro s hs
    push_neg at hs
    obtain ⟨h0, h1, h2⟩ := hs
    simp [nextPumpState, h0, h1, h2]

def c2Data : SpaClientData :=
  { configuration_loaded := true, mac_address := none
    temperature := none, target_temperature := none, heat_mode := none
    pumps := [some { state := 1 }, some { state := 7 }]
    lights := [], circulation_pump := none
    filter_cycle_1_running := false, filter_cycle_2_running := false }

def c2Controller : SpaController :=
  { config := { spa_id := 1, name := "Main Spa", ip_address := "172.16.10.140" }
    client := some (Except.ok c2Data), connected := true, last_status := none }

theorem C2_cycle_pump_sends_next_state_witness :
    c2Controller.cycle_pump 0 =
      Except.ok [DeviceAction.pumpSetState 0 2] ∧
    c2Controller.cycle_pump 1 =
      Except.ok [DeviceAction.pumpSetState 1 0] :=
  ⟨(C2_cycle_pump_sends_next_state c2Controller c2Data 0
      { state := 1 } rfl rfl rfl).1,
   (C2_cycle_pump_sends_next_state c2Controller c2Data 1
      { state := 7 } rfl rfl rfl).1⟩

/-- C3: on a connected spa, cycling the first light with a truthy
(non-empty) options list of length N sends `(state + 1) % N`; with no
options list it sends the binary toggle, which maps 0 to 1, 1 to 0, and
lands in {0, 1} from every state. -/
theorem C3_cycle_light_next_state (c : SpaController) (d : SpaClientData)
    (hconn : c.connected = true) (hcl : c.client = some (Except.ok d)) :
    (∀ light opts, d.lights.head? = some (some light) →
      light.options = some opts → opts ≠ [] →
      c.cycle_light = Except.ok [DeviceAction.lightSetState
        ((light.state + 1) % (opts.length : Int))]) ∧
    (∀ light, d.lights.head? = some (some light) → light.options = none →
      c.cycle_light = Except.ok
        [DeviceAction.lightSetState (toggleLightState light.state)]) ∧
    toggleLightState 0 = 1 ∧ toggleLightState 1 = 0 ∧
    (∀ s : Int, toggleLightState s = 0 ∨ toggleLightState s = 1) := by
  obtain ⟨cfg, cl, conn, ls⟩ := c
  simp only at hconn hcl
  subst hconn; subst hcl
  refine ⟨?_, ?_, rfl, rfl, ?_⟩
  · intro light opts hhead hopts hne
    have hlne : d.lights ≠ [] := by
      intro hnil; rw [hnil] at hhead; simp at hhead
    show SpaController.cycle_light _ = _
    simp only [SpaController.cycle_light]
    rw [if_pos ⟨hlne, List.length_pos.mpr hlne⟩]
    rw [hhead]
    simp [nextLightState, hopts, hne]
  · intro light hhead hopts
    have hlne : d.lights ≠ [] := by
      intro hnil; rw [hnil] at hhead; simp at hhead
    show SpaController.cycle_light _ = _
    simp only [SpaController.cycle_light]
    rw [if_pos ⟨hlne, List.length_pos.mpr hlne⟩]
    rw [hhead]
    simp [nextLightState, hopts]
  · intro s
    by_cases h : s = 0
    · right; simp [toggleLightState, h]
    · left; simp [toggleLightState, h]

def c4Data : SpaClientData :=
  { configuration_loaded := true, mac_address := none
    temperature := none, target_temperature := none, heat_mode := none
    pumps := [], lights := [some { state := 0, options := none }]
    circulation_pump := none
    filter_cycle_1_running := false, filter_cycle_2_running := false }

def c4Controller : SpaController :=
  { config := { spa_id := 1, name := "Main Spa", ip_address := "172.16.10.140" }
    client := some (Except.ok c4Data), connected := true, last_status := none }

/-- C4 counterexample: a fully-ready fetch whose first light has no
options list and state 0. The claim predicts `light_mode = "STATE_0"`
(it covers "every value of s, including s=0"); the code never enters the
mode computation when the state is 0 and leaves the initial `"OFF"`. -/
theorem C4_claim_counterexample :
    (c4Controller.get_status 0).1.light_mode = some "OFF" ∧
    (c4Controller.get_status 0).1.light_mode ≠ some "STATE_0" := by
  constructor
  · rfl
  · intro h
    simp only [show (c4Controller.get_status 0).1.light_mode = some "OFF" from rfl] at h
    exact absurd (Option.some.inj h) (by decide)

/-- C4 (amended): on a fully-ready fetch, with `s` the state of the first
non-None light, `lights` is `s > 0` for every `s`; the claimed
`light_mode` rules (named option when in range, `MODE_<s>` when out of
range, `STATE_<s>` when the options list is absent or empty) hold exactly
when `s > 0`; when `s ≤ 0` the mode keeps its initial `"OFF"`. -/
theorem C4_light_mode_amended (c : SpaController) (d : SpaClientData)
    (now : Int) (light : Light)
    (hconn : c.connected = true) (hcl : c.client = some (Except.ok d))
    (hload : d.configuration_loaded = true)
    (hfirst : d.lights.findSome? id = some light) :
    ((c.get_status now).1.lights = decide (0 < light.state)) ∧
    (0 < light.state →
      (∀ opts, light.options = some opts → opts ≠ [] →
        (light.state < (opts.length : Int) →
          (c.get_status now).1.light_mode = some (opts.getD light.state.toNat "")) ∧
        ((opts.length : Int) ≤ light.state →
          (c.get_status now).1.light_mode =
            some ("MODE_" ++ toString light.state))) ∧
      ((light.options = none ∨ light.options = some []) →
        (c.get_status now).1.light_mode =
          some ("STATE_" ++ toString light.state))) ∧
    (light.state ≤ 0 → (c.get_status now).1.light_mode = some "OFF") := by
  obtain ⟨cfg, cl, conn, ls⟩ := c
  simp only at hconn hcl
  subst hconn; subst hcl
  have hred1 : (SpaController.get_status
      { config := cfg, client := some (Except.ok d), connected := true,
        last_status := ls } now).1.lights = (parseLights d.lights).1 := by
    simp [SpaController.get_status, hload]
  have hred2 : (SpaController.get_status
      { config := cfg, client := some (Except.ok d), connected := true,
        last_status := ls } now).1.light_mode =
      some (parseLights d.lights).2 := by
    simp [SpaController.get_status, hload]
  rw [hred1, hred2]
  refine ⟨?_, ?_, ?_⟩
  · by_cases hpos : 0 < light.state
    · simp [parseLights, hfirst, hpos]
    · simp [parseLights, hfirst, hpos]
  · intro hpos
    constructor
    · intro opts hopts hne
      constructor
      · intro hlt
        simp [parseLights, hfirst, hpos, lightModeLabel, hopts, hne, hlt]
      · intro hge
        simp [parseLights, hfirst, hpos, lightModeLabel, hopts, hne,
          show ¬ (light.state < (opts.length : Int)) from by omega]
    · rintro (hopts | hopts) <;>
        simp [parseLights, hfirst, hpos, lightModeLabel, hopts]
  · intro hle
    simp [parseLights, hfirst, show ¬ (0 < light.state) from by omega]

def c4wData : SpaClientData :=
  { configuration_loaded := true, mac_address := none
    temperature := none, target_temperature := none, heat_mode := none
    pumps := [], lights := [some { state := 1, options := some ["OFF", "LOW", "HIGH"] }]
    circulation_pump := none
    filter_cycle_1_running := false, filter_cycle_2_running := false }

def c4wController : SpaController :=
  { config := { spa_id := 1, name := "Main Spa", ip_address := "172.16.10.140" }
    client := some (Except.ok c4wData), connected := true, last_status := none }

theorem C4_light_mode_amended_witness :
    (c4wController.get_status 0).1.lights = true ∧
    (c4wController.get_status 0).1.light_mode = some "LOW" ∧
    (c4Controller.get_status 0).1.light_mode = some "OFF" :=
  ⟨(C4_light_mode_amended c4wController c4wData 0
      { state := 1, options := some ["OFF", "LOW", "HIGH"] } rfl rfl rfl rfl).1,
   (((C4_light_mode_amended c4wController c4wData 0
      { state := 1, options := some ["OFF", "LOW", "HIGH"] } rfl rfl rfl rfl).2.1
        (by decide)).1 ["OFF", "LOW", "HIGH"] rfl (by decide)).1 (by decide),
   (C4_light_mode_amended c4Controller c4Data 0
      { state := 0, options := none } rfl rfl rfl rfl).2.2 (by decide)⟩

/-- C6: every manager-dispatched command raises the `not found` message
when the spa_id is not registered, and the `not connected` message when
the controller at that id has a false connected flag or no client handle.
In both cases the result is an error, so the (ok-only) device-action list
is empty: no device communication is attempted. -/
theorem C6_command_preconditions (m : SpaControllerManager) (spa_id : Int)
    (temperature : Int) (pump_id : Int) (state : Bool) :
    (lookupController m.controllers spa_id = none →
      m.set_temperature spa_id temperature = Except.error (notFoundMsg spa_id) ∧
      m.cycle_pump spa_id pump_id = Except.error (notFoundMsg spa_id) ∧
      m.cycle_light spa_id = Except.error (notFoundMsg spa_id) ∧
      m.set_light spa_id state = Except.error (notFoundMsg spa_id)) ∧
    (∀ c, lookupController m.controllers spa_id = some c →
      c.connected = false ∨ c.client = none →
      m.set_temperature spa_id temperature =
        Except.error (notConnectedMsg c.config.spa_id) ∧
      m.cycle_pump spa_id pump_id =
        Except.error (notConnectedMsg c.config.spa_id) ∧
      m.cycle_light spa_id = Except.error (notConnectedMsg c.config.spa_id) ∧
      m.set_light spa_id state =
        Except.error (notConnectedMsg c.config.spa_id)) := by
  constructor
  · intro h
    refine ⟨?_, ?_, ?_, ?_⟩ <;>
      simp [SpaControllerManager.set_temperature, SpaControllerManager.cycle_pump,
        SpaControllerManager.cycle_light, SpaControllerManager.set_light, h]
  · intro c hc hdisc
    have hops :
        c.set_temperature temperature =
          Except.error (notConnectedMsg c.config.spa_id) ∧
        c.cycle_pump pump_id = Except.error (notConnectedMsg c.config.spa_id) ∧
        c.cycle_light = Except.error (notConnectedMsg c.config.spa_id) ∧
        c.set_light state = Except.error (notConnectedMsg c.config.spa_id) := by
      obtain ⟨cfg, cl, conn, ls⟩ := c
      rcases hdisc with h | h
      · simp only at h; subst h
        exact ⟨rfl, rfl, rfl, rfl⟩
      · simp only at h; subst h
        cases conn <;> exact ⟨rfl, rfl, rfl, rfl⟩
    refine ⟨?_, ?_, ?_, ?_⟩ <;>
      simp [SpaControllerManager.set_temperature, SpaControllerManager.cycle_pump,
        SpaControllerManager.cycle_light, SpaControllerManager.set_light, hc,
        hops.1, hops.2.1, hops.2.2.1, hops.2.2.2]

def c6Disconnected : SpaController :=
  { config := { spa_id := 2, name := "Secondary Spa", ip_address := "172.16.10.163" }
    client := none, connected := false, last_status := none }

def c6Manager : SpaControllerManager :=
  { controllers := [(2, c6Disconnected)]
    configs := [{ spa_id := 2, name := "Secondary Spa", ip_address := "172.16.10.163" }] }

theorem C6_command_preconditions_witness :
    c6Manager.set_temperature 1 100 = Except.error (notFoundMsg 1) ∧
    c6Manager.cycle_pump 1 0 = Except.error (notFoundMsg 1) ∧
    c6Manager.cycle_light 1 = Except.error (notFoundMsg 1) ∧
    c6Manager.set_light 1 true = Except.error (notFoundMsg 1) ∧
    c6Manager.set_temperature 2 100 = Except.error (notConnectedMsg 2) ∧
    c6Manager.cycle_pump 2 0 = Except.error (notConnectedMsg 2) ∧
    c6Manager.cycle_light 2 = Except.error (notConnectedMsg 2) ∧
    c6Manager.set_light 2 true = Except.error (notConnectedMsg 2) := by
  have h1 := (C6_command_preconditions c6Manager 1 100 0 true).1 rfl
  have h2 := (C6_command_preconditions c6Manager 2 100 0 true).2
    c6Disconnected rfl (Or.inl rfl)
  exact ⟨h1.1, h1.2.1, h1.2.2.1, h1.2.2.2, h2.1, h2.2.1, h2.2.2.1, h2.2.2.2⟩

/-- Subscripting with a negative index in `[-len, -1]` reads the entry at
`len + i`. -/
theorem pyListGet_negInRange {α : Type} (xs : List α) (i : Int) (x : α)
    (hneg : i < 0) (hge : -(xs.length : Int) ≤ i)
    (h : xs.get? ((xs.length : Int) + i).toNat = some x) :
    pyListGet xs i = Except.ok x := by
  have h2 : 0 ≤ (xs.length : Int) + i ∧ (xs.length : Int) + i < (xs.length : Int) := by
    constructor <;> omega
  simp only [pyListGet, pyNormIdx]
  rw [if_pos hneg]
  rw [if_pos h2]
  simp only [h]

/-- Subscripting with an index below `-len` raises IndexError. -/
theorem pyListGet_belowRange {α : Type} (xs : List α) (i : Int)
    (h : i < -(xs.length : Int)) : pyListGet xs i = Except.error () := by
  have hneg : i < 0 := by omega
  simp only [pyListGet, pyNormIdx]
  rw [if_pos hneg]
  rw [if_neg (by omega)]

/-- C10: on a connected spa with a non-empty pump list and a negative
index `p`, the `len(pumps) > p` guard always passes; for
`-len ≤ p ≤ -1` the subscript wraps and the send goes to the device at
position `len + p` with its cycled state; for `p < -len` the subscript
raises IndexError, which the handler re-raises. -/
theorem C10_negative_pump_index (c : SpaController) (d : SpaClientData)
    (p : Int)
    (hconn : c.connected = true) (hcl : c.client = some (Except.ok d))
    (hne : d.pumps ≠ []) (hneg : p < 0) :
    ((d.pumps.length : Int) > p) ∧
    (∀ pump, -(d.pumps.length : Int) ≤ p →
      d.pumps.get? ((d.pumps.length : Int) + p).toNat = some (some pump) →
      c.cycle_pump p = Except.ok [DeviceAction.pumpSetState
        ((d.pumps.length : Int) + p) (nextPumpState pump.state)]) ∧
    (p < -(d.pumps.length : Int) → c.cycle_pump p = Except.error indexErrorMsg) := by
  obtain ⟨cfg, cl, conn, ls⟩ := c
  simp only at hconn hcl
  subst hconn; subst hcl
  refine ⟨by omega, ?_, ?_⟩
  · intro pump hge hp
    show SpaController.cycle_pump _ _ = _
    simp only [SpaController.cycle_pump]
    rw [if_pos ⟨hne, by omega⟩]
    rw [pyListGet_negInRange d.pumps p (some pump) hneg hge hp]
    simp [pyNormIdx, hneg]
  · intro hlt
    show SpaController.cycle_pump _ _ = _
    simp only [SpaController.cycle_pump]
    rw [if_pos ⟨hne, by omega⟩]
    rw [pyListGet_belowRange d.pumps p hlt]

def c10Data : SpaClientData :=
  { configuration_loaded := true, mac_address := none
    temperature := none, target_temperature := none, heat_mode := none
    pumps := [some { state := 0 }, some { state := 2 }]
    lights := [], circulation_pump := none
    filter_cycle_1_running := false, filter_cycle_2_running := false }

def c10Controller : SpaController :=
  { config := { spa_id := 1, name := "Main Spa", ip_address := "172.16.10.140" }
    client := some (Except.ok c10Data), connected := true, last_status := none }

theorem C10_negative_pump_index_witness :
    ((2 : Int) > -1) ∧
    c10Controller.cycle_pump (-1) =
      Except.ok [DeviceAction.pumpSetState 1 0] ∧
    c10Controller.cycle_pump (-3) = Except.error indexErrorMsg := by
  have h := C10_negative_pump_index c10Controller c10Data (-1)
    rfl rfl (by decide) (by decide)
  have h3 := C10_negative_pump_index c10Controller c10Data (-3)
    rfl rfl (by decide) (by decide)
  refine ⟨by decide, ?_, h3.2.2 (by decide)⟩
  have := h.2.1 { state := 2 } (by decide) rfl
  simpa using this

/-- A key is in a Python-dict insertion exactly when it is the inserted
key or was already present. -/
theorem containsKey_insertController (m : List (Int × SpaController))
    (spa_id k : Int) (c : SpaController) :
    containsKey (insertController m k c) spa_id = true ↔
      (containsKey m spa_id = true ∨ k = spa_id) := by
  simp only [insertController]
  split
  case isTrue h =>
    simp only [containsKey, List.any_eq_true, List.any_map, Function.comp,
      decide_eq_true_eq] at h ⊢
    constructor
    · rintro ⟨p, hp, hkey⟩
      by_cases hpe : p.1 = k
      · right
        simpa [hpe] using hkey
      · left
        exact ⟨p, hp, by simpa [hpe] using hkey⟩
    · rintro (⟨p, hp, hkey⟩ | hid)
      · by_cases hpe : p.1 = k
        · exact ⟨p, hp, by simp [hpe, hpe ▸ hkey]⟩
        · exact ⟨p, hp, by simpa [hpe] using hkey⟩
      · obtain ⟨q, hq, hqe⟩ := h
        exact ⟨q, hq, by simp [hqe, hid]⟩
  case isFalse h =>
    simp only [containsKey, List.any_eq_true, List.mem_append,
      List.mem_singleton, decide_eq_true_eq]
    constructor
    · rintro ⟨p, hp | hp, hkey⟩
      · exact Or.inl ⟨p, hp, hkey⟩
      · subst hp; exact Or.inr hkey
    · rintro (⟨p, hp, hkey⟩ | hid)
      · exact ⟨p, Or.inl hp, hkey⟩
      · exact ⟨(k, c), Or.inr rfl, hid⟩

/-- Membership after the whole initialize loop, for any accumulator. -/
theorem containsKey_initLoop (net : SpaConfig → Option SpaClient)
    (spa_id : Int) (configs : List SpaConfig) :
    ∀ acc : List (Int × SpaController),
      containsKey (configs.foldl (initStep net) acc) spa_id = true ↔
        (containsKey acc spa_id = true ∨
          ∃ cfg ∈ configs, cfg.spa_id = spa_id ∧ cfg.enabled = true ∧
            (net cfg).isSome = true) := by
  induction configs with
  | nil => intro acc; simp
  | cons cfg rest ih =>
      intro acc
      rw [List.foldl_cons, ih]
      have hstep : containsKey (initStep net acc cfg) spa_id = true ↔
          (containsKey acc spa_id = true ∨
            (cfg.spa_id = spa_id ∧ cfg.enabled = true ∧ (net cfg).isSome = true)) := by
        by_cases he : cfg.enabled
        · cases hn : net cfg with
          | some cl =>
              simp [initStep, he, hn, containsKey_insertController]
          | none => simp [initStep, he, hn]
        · simp [initStep, he]
      rw [hstep]
      constructor
      · rintro ((h | h) | ⟨q, hq, hrest⟩)
        · exact Or.inl h
        · exact Or.inr ⟨cfg, List.mem_cons_self cfg rest, h⟩
        · exact Or.inr ⟨q, List.mem_cons_of_mem cfg hq, hrest⟩
      · rintro (h | ⟨q, hq, hrest⟩)
        · exact Or.inl (Or.inl h)
        · rcases List.mem_cons.mp hq with rfl | hq
          · exact Or.inl (Or.inr hrest)
          · exact Or.inr ⟨q, hq, hrest⟩

/-- C5: after manager initialization, a spa_id is registered iff some
config carries it, is enabled, and its connect succeeded; and
`get_all_status` returns exactly one entry per registered controller,
with the same keys in the same order. -/
theorem C5_initialize_membership (net : SpaConfig → Option SpaClient)
    (configs : List SpaConfig) (spa_id : Int) (now : Int) :
    (containsKey (initControllers net configs).controllers spa_id = true ↔
      ∃ cfg ∈ configs, cfg.spa_id = spa_id ∧ cfg.enabled = true ∧
        (net cfg).isSome = true) ∧
    (((initControllers net configs).get_all_status now).1.map Prod.fst =
      (initControllers net configs).controllers.map Prod.fst) := by
  constructor
  · rw [show (initControllers net configs).controllers =
        configs.foldl (initStep net) [] from rfl]
    rw [containsKey_initLoop net spa_id configs []]
    simp [containsKey]
  · simp [SpaControllerManager.get_all_status, List.map_map, Function.comp]

def c5DataA : SpaClientData :=
  { configuration_loaded := true, mac_address := some "00:15:27:aa:bb:cc"
    temperature := some 100, target_temperature := some 102, heat_mode := some "Ready"
    pumps := [], lights := [], circulation_pump := none
    filter_cycle_1_running := false, filter_cycle_2_running := false }

def c5ConfigA : SpaConfig :=
  { spa_id := 1, name := "Main Spa", ip_address := "172.16.10.140" }

def c5ConfigB : SpaConfig :=
  { spa_id := 2, name := "Secondary Spa", ip_address := "172.16.10.163" }

def c5Net : SpaConfig → Option SpaClient := fun cfg =>
  if cfg.spa_id = 1 then some (Except.ok c5DataA) else none

theorem C5_initialize_membership_witness :
    containsKey (initControllers c5Net [c5ConfigA, c5ConfigB]).controllers 1 = true ∧
    containsKey (initControllers c5Net [c5ConfigA, c5ConfigB]).controllers 2 = false ∧
    ((initControllers c5Net [c5ConfigA, c5ConfigB]).get_all_status 0).1.map Prod.fst
      = [1] := by
  refine ⟨?_, ?_, ?_⟩
  · exact (C5_initialize_membership c5Net [c5ConfigA, c5ConfigB] 1 0).1.mpr
      ⟨c5ConfigA, by simp, rfl, rfl, rfl⟩
  · have hiff := (C5_initialize_membership c5Net [c5ConfigA, c5ConfigB] 2 0).1
    have hno : ¬ ∃ cfg ∈ [c5ConfigA, c5ConfigB], cfg.spa_id = 2 ∧
        cfg.enabled = true ∧ (c5Net cfg).isSome = true := by decide
    cases hck : containsKey (initControllers c5Net [c5ConfigA, c5ConfigB]).controllers 2
    · rfl
    · exact absurd (hiff.mp hck) hno
  · exact (C5_initialize_membership c5Net [c5ConfigA, c5ConfigB] 1 0).2.trans rfl

/-- Removing elements all different from the head leaves the head. -/
theorem pruneDisconnected_cons_of_ne {α : Type} [DecidableEq α] (x : α)
    (disc : List α) (h : ∀ a ∈ disc, a ≠ x) :
    ∀ rest : List α,
      pruneDisconnected (x :: rest) disc = x :: pruneDisconnected rest disc := by
  induction disc with
  | nil => intro rest; rfl
  | cons a ds ih =>
      intro rest
      have hax : a ≠ x := h a (List.mem_cons_self a ds)
      have hds : ∀ b ∈ ds, b ≠ x := fun b hb => h b (List.mem_cons_of_mem a hb)
      simp only [pruneDisconnected, List.foldl_cons]
      by_cases hmem : a ∈ rest
      · rw [if_pos (List.mem_cons_of_mem x hmem)]
        rw [if_pos hmem]
        have hrm : pyRemoveFirst (x :: rest) a = x :: pyRemoveFirst rest a := by
          simp only [pyRemoveFirst]
          rw [if_neg (fun hxa => hax hxa.symm)]
        rw [hrm]
        exact ih hds (pyRemoveFirst rest a)
      · have hnmem : a ∉ x :: rest := by
          intro hc
          rcases List.mem_cons.mp hc with hc | hc
          · exact hax hc
          · exact hmem hc
        rw [if_neg hnmem, if_neg hmem]
        exact ih hds rest

/-- The post-iteration removal loop, fed exactly the failed elements of
the active list, leaves exactly the non-failed ones in order. -/
theorem pruneDisconnected_filter {α : Type} [DecidableEq α] (p : α → Bool) :
    ∀ xs : List α,
      pruneDisconnected xs (xs.filter p) = xs.filter (fun x => !(p x)) := by
  intro xs
  induction xs with
  | nil => rfl
  | cons x rest ih =>
      by_cases hp : p x = true
      · rw [List.filter_cons_of_pos hp]
        simp only [pruneDisconnected, List.foldl_cons]
        rw [if_pos (List.mem_cons_self x rest)]
        have hrm : pyRemoveFirst (x :: rest) x = rest := by
          simp [pyRemoveFirst]
        rw [hrm]
        rw [show (List.foldl (fun acc c => if c ∈ acc then pyRemoveFirst acc c
          else acc) rest (List.filter p rest)) =
            pruneDisconnected rest (rest.filter p) from rfl]
        rw [ih]
        rw [List.filter_cons_of_neg (by simp [hp])]
      · have hp' : p x = false := by
          cases hpx : p x
          · rfl
          · exact absurd hpx hp
        rw [List.filter_cons_of_neg (by simp [hp'])]
        have hne : ∀ a ∈ rest.filter p, a ≠ x := by
          intro a ha rfl1
          have := List.of_mem_filter ha
          rw [rfl1] at this
          rw [hp'] at this
          exact Bool.noConfusion this
        rw [pruneDisconnected_cons_of_ne x (rest.filter p) hne rest]
        rw [ih]
        rw [List.filter_cons_of_pos (by simp [hp'])]

/-- C7: one broadcast attempts delivery to every subscriber in registry
order; the registry after the fan-out holds exactly the subscribers whose
delivery succeeded (each failed one is removed only once the iteration is
over, which is why every subscriber is still attempted); and a subscriber
whose delivery failed gets no delivery attempt in the next cycle. -/
theorem C7_broadcast_fanout {α : Type} [DecidableEq α] (active : List α)
    (delivers : α → Bool) :
    (ConnectionManager.broadcast active delivers).1 = active ∧
    (ConnectionManager.broadcast active delivers).2 = active.filter delivers ∧
    (∀ c, delivers c = false →
      c ∉ (ConnectionManager.broadcast
        ((ConnectionManager.broadcast active delivers).2) delivers).1) := by
  have h2 : (ConnectionManager.broadcast active delivers).2 =
      active.filter delivers := by
    show pruneDisconnected active (active.filter (fun c => !(delivers c))) =
      active.filter delivers
    rw [pruneDisconnected_filter (fun c => !(delivers c)) active]
    simp
  refine ⟨rfl, h2, ?_⟩
  intro c hc hmem
  rw [show (ConnectionManager.broadcast
      ((ConnectionManager.broadcast active delivers).2) delivers).1 =
      (ConnectionManager.broadcast active delivers).2 from rfl] at hmem
  rw [h2] at hmem
  have := List.of_mem_filter hmem
  rw [hc] at this
  exact Bool.noConfusion this

def c7Delivers : Nat → Bool := fun c => c != 2

theorem C7_broadcast_fanout_witness :
    (ConnectionManager.broadcast [1, 2, 3] c7Delivers).1 = [1, 2, 3] ∧
    (ConnectionManager.broadcast [1, 2, 3] c7Delivers).2 = [1, 3] ∧
    2 ∉ (ConnectionManager.broadcast
      ((ConnectionManager.broadcast [1, 2, 3] c7Delivers).2) c7Delivers).1 := by
  have h := C7_broadcast_fanout [1, 2, 3] c7Delivers
  exact ⟨h.1, h.2.1.trans (by decide), h.2.2 2 (by decide)⟩

def c3DataOpts : SpaClientData :=
  { configuration_loaded := true, mac_address := none
    temperature := none, target_temperature := none, heat_mode := none
    pumps := [], lights := [some { state := 2, options := some ["OFF", "LOW", "HIGH"] }]
    circulation_pump := none
    filter_cycle_1_running := false, filter_cycle_2_running := false }

def c3ControllerOpts : SpaController :=
  { config := { spa_id := 1, name := "Main Spa", ip_address := "172.16.10.140" }
    client := some (Except.ok c3DataOpts), connected := true, last_status := none }

def c3DataNoOpts : SpaClientData :=
  { configuration_loaded := true, mac_address := none
    temperature := none, target_temperature := none, heat_mode := none
    pumps := [], lights := [some { state := 0, options := none }]
    circulation_pump := none
    filter_cycle_1_running := false, filter_cycle_2_running := false }

def c3ControllerNoOpts : SpaController :=
  { config := { spa_id := 2, name := "Secondary Spa", ip_address := "172.16.10.163" }
    client := some (Except.ok c3DataNoOpts), connected := true, last_status := none }

theorem C3_cycle_light_next_state_witness :
    c3ControllerOpts.cycle_light = Except.ok [DeviceAction.lightSetState 0] ∧
    c3ControllerNoOpts.cycle_light = Except.ok [DeviceAction.lightSetState 1] := by
  have hopts := (C3_cycle_light_next_state c3ControllerOpts c3DataOpts rfl rfl).1
    { state := 2, options := some ["OFF", "LOW", "HIGH"] } ["OFF", "LOW", "HIGH"]
    rfl rfl (by decide)
  have hno := (C3_cycle_light_next_state c3ControllerNoOpts c3DataNoOpts rfl rfl).2.1
    { state := 0, options := none } rfl rfl
  exact ⟨hopts.trans (by decide), hno.trans (by decide)⟩
